import Mathlib

/-
Verification of the mongo-replica-local transaction timeout harness.

The repository drives a multi-statement MongoDB transaction under three
configurable timeout knobs and classifies every failure raised by the
driver.  The development below is a shallow embedding of the decision
logic of the four scripts:

  * src/unnamed/part_000            (run-transaction, bounded timeouts)
  * src/src/run-transaction-no-timeout.ts
  * src/src/run-transaction-hang-pause.ts
  * src/test-worker-timeouts.js     (second half: runTransactionHangOnCommit)

JavaScript numbers that can be NaN are modelled as Option Int with none
standing for NaN; an absent object field is an outer Option with none
standing for field-not-present.
-/

/-- A JavaScript number restricted to integer values; none models NaN. -/
abbrev JSNum := Option Int

/-- Whitespace skipped by the JavaScript parseInt builtin. -/
def isJsSpace (c : Char) : Bool :=
  c = ' ' || c = '\t' || c = '\n' || c = '\r'

/-- Numeric value of the longest leading run of decimal digits; none when
the run is empty (parseInt then returns NaN). -/
def parseLeadingDigits (cs : List Char) : Option Nat :=
  let ds := cs.takeWhile Char.isDigit
  if ds.isEmpty then none
  else some (ds.foldl (fun a c => 10 * a + (c.toNat - 48)) 0)

/-- Model of the JavaScript parseInt(s, 10) builtin: skip leading
whitespace, accept an optional sign, read leading decimal digits, and
return NaN (none) when no digit is found. -/
def jsParseInt (s : String) : JSNum :=
  match s.data.dropWhile isJsSpace with
  | '-' :: rest => (parseLeadingDigits rest).map (fun n => -(n : Int))
  | '+' :: rest => (parseLeadingDigits rest).map (fun n => (n : Int))
  | rest => (parseLeadingDigits rest).map (fun n => (n : Int))

/-- Model of the JavaScript expression (v || d) on strings: an absent
environment variable is undefined and the empty string is falsy, so both
select the default. -/
def jsOr (v : Option String) (d : String) : String :=
  match v with
  | none => d
  | some s => if s = "" then d else s

/-- src/unnamed/part_000 line 4: parseInt(process.env.W_TIMEOUT_MS or
the default string 2000, 10). -/
def W_TIMEOUT_MS (env : Option String) : JSNum :=
  jsParseInt (jsOr env "2000")

/-- src/unnamed/part_000 line 5: parseInt(process.env.MAX_COMMIT_MS or
the default string 1500, 10). -/
def MAX_COMMIT_MS (env : Option String) : JSNum :=
  jsParseInt (jsOr env "1500")

/-- src/unnamed/part_000 line 6: parseInt(process.env.OP_MAXTIME_MS or
the default string 1000, 10). -/
def OP_MAXTIME_MS (env : Option String) : JSNum :=
  jsParseInt (jsOr env "1000")

/-- The three timeout environment variables visible to part_000; none
models an unset variable. -/
structure EnvVars where
  wTimeoutMs : Option String
  maxCommitMs : Option String
  opMaxtimeMs : Option String
  deriving DecidableEq

/-- The writeConcern sub-object of the transaction options.  wtimeout is
an optional field (outer none = field absent) whose value is a JS number
(inner none = NaN). -/
structure WriteConcernOpts where
  w : String
  wtimeout : Option JSNum
  deriving DecidableEq

/-- The transaction options object passed to startTransaction. -/
structure TxOptions where
  writeConcern : WriteConcernOpts
  readConcernLevel : String
  maxCommitTimeMS : Option JSNum
  deriving DecidableEq

/-- The per-operation options passed to insertOne and updateOne. -/
structure OpOptions where
  maxTimeMS : Option JSNum
  deriving DecidableEq

/-- src/unnamed/part_000 lines 53-60: the transaction options literal,
with w majority, wtimeout set to W_TIMEOUT_MS, read concern majority and
maxCommitTimeMS set to MAX_COMMIT_MS. -/
def transactionOptions (env : EnvVars) : TxOptions :=
  { writeConcern := { w := "majority", wtimeout := some (W_TIMEOUT_MS env.wTimeoutMs) }
    readConcernLevel := "majority"
    maxCommitTimeMS := some (MAX_COMMIT_MS env.maxCommitMs) }

/-- src/unnamed/part_000 lines 77-83 and 92-99: both operation calls pass
maxTimeMS set to OP_MAXTIME_MS. -/
def operationOptions (env : EnvVars) : OpOptions :=
  { maxTimeMS := some (OP_MAXTIME_MS env.opMaxtimeMs) }

/-- A failure as reported by the driver and captured by the catch blocks:
error.code, error.codeName, error.message and whether the error carries
the TransientTransactionError label. -/
structure RawFailure where
  code : Option Int
  symbolicName : Option String
  message : String
  retryableLabelPresent : Bool
  deriving DecidableEq

/-- The closed set of failure categories distinguished by the catch-block
dispatch chains. -/
inductive FailureCategory where
  | OperationTimeout
  | WriteConcernTimeout
  | CommitTimeout
  | TopologyChange
  | Retryable
  | Unclassified
  deriving DecidableEq

/-- The recovery action attached to a category. -/
inductive RecommendedAction where
  | Abort
  | RetryTransaction
  | RetryOperation
  | NoAction
  deriving DecidableEq

/-- A category paired with its recommended action. -/
structure ClassifiedFailure where
  category : FailureCategory
  recommendedAction : RecommendedAction
  deriving DecidableEq

/-- Branch test: codeName MaxTimeMSExpired or code 50
(test-worker-timeouts.js line 213, part_000 line 122). -/
def isOperationTimeoutErr (f : RawFailure) : Bool :=
  f.symbolicName = some "MaxTimeMSExpired" || f.code = some 50

/-- Branch test: codeName WriteConcernFailed or code 64
(test-worker-timeouts.js line 216, part_000 line 124). -/
def isWriteConcernErr (f : RawFailure) : Bool :=
  f.symbolicName = some "WriteConcernFailed" || f.code = some 64

/-- Branch test: codeName ExceededTimeLimit or code 262
(test-worker-timeouts.js line 219, part_000 line 126). -/
def isCommitTimeoutErr (f : RawFailure) : Bool :=
  f.symbolicName = some "ExceededTimeLimit" || f.code = some 262

/-- Branch test: codeName NotPrimaryOrSecondary or
InterruptedDueToReplStateChange (test-worker-timeouts.js line 224). -/
def isTopologyErr (f : RawFailure) : Bool :=
  f.symbolicName = some "NotPrimaryOrSecondary" ||
  f.symbolicName = some "InterruptedDueToReplStateChange"

/-- The classifier dispatch chain of runTransactionHangOnCommit
(src/test-worker-timeouts.js lines 213-228), the most complete chain in
the repository: operation timeout, then write-concern failure, then
commit time limit, then the transient-transaction label, then topology
change, else unclassified.  First match wins. -/
def classifyCategory (f : RawFailure) : FailureCategory :=
  if isOperationTimeoutErr f then .OperationTimeout
  else if isWriteConcernErr f then .WriteConcernTimeout
  else if isCommitTimeoutErr f then .CommitTimeout
  else if f.retryableLabelPresent then .Retryable
  else if isTopologyErr f then .TopologyChange
  else .Unclassified

/-- The classifier dispatch chain of part_000 lines 122-132 (identical in
src/src/run-transaction-no-timeout.ts lines 145-158): same chain but
without the topology branch. -/
def classifyTx (f : RawFailure) : FailureCategory :=
  if isOperationTimeoutErr f then .OperationTimeout
  else if isWriteConcernErr f then .WriteConcernTimeout
  else if isCommitTimeoutErr f then .CommitTimeout
  else if f.retryableLabelPresent then .Retryable
  else .Unclassified

/-- Modelled from the spec: the catch blocks only log, so the
recommendedAction column of the ClassifiedFailure data model (spec
sections 3 and 4.3) has no counterpart in the code; this table attaches
the action the spec assigns to each category. -/
def recommendedFor : FailureCategory → RecommendedAction
  | .OperationTimeout => .RetryOperation
  | .WriteConcernTimeout => .Abort
  | .CommitTimeout => .Abort
  | .TopologyChange => .RetryTransaction
  | .Retryable => .RetryTransaction
  | .Unclassified => .Abort

/-- The full classifier of the spec: category from the source dispatch
chain, action from the spec table. -/
def classify (f : RawFailure) : ClassifiedFailure :=
  { category := classifyCategory f
    recommendedAction := recommendedFor (classifyCategory f) }

/-- The two log outcomes of the hang-pause catch block. -/
inductive PauseLog where
  | topologyChanged
  | otherError
  deriving DecidableEq

/-- The classifier chain of src/src/run-transaction-hang-pause.ts lines
129-133: NotWritablePrimary or NotPrimaryOrSecondary log a topology
change, everything else is logged as other. -/
def classifyHangPause (f : RawFailure) : PauseLog :=
  if f.symbolicName = some "NotWritablePrimary" ||
     f.symbolicName = some "NotPrimaryOrSecondary" then .topologyChanged
  else .otherError

/-- Modelled from the spec: the topology example names listed by the
precedence claim (NotWritablePrimary, NotPrimaryOrSecondary,
InterruptedDueToReplStateChange); used only to compare the claim wording
with the source dispatch chain. -/
def specIndicatesTopologyChange (f : RawFailure) : Bool :=
  f.symbolicName = some "NotWritablePrimary" ||
  f.symbolicName = some "NotPrimaryOrSecondary" ||
  f.symbolicName = some "InterruptedDueToReplStateChange"

/-- Observable events of one part_000 runTransaction invocation. -/
inductive Event where
  | connected
  | indexCreated
  | sessionStarted
  | txStarted
  | insertDone
  | updateDone
  | committed
  | errorLogged (c : FailureCategory)
  | abortAttempted
  | abortSucceeded
  | abortFailLogged
  | sessionEnded
  | connectionClosed
  deriving DecidableEq

/-- Failure injection for one part_000 run: which driver calls fail and
with what error.  The catch-block and finally-block behaviour is a pure
function of these outcomes. -/
structure RunEnv where
  connectFails : Option RawFailure
  indexFails : Bool
  insertFails : Option RawFailure
  updateFails : Option RawFailure
  commitFails : Option RawFailure
  abortFails : Bool
  endSessionFails : Bool
  closeFails : Bool

/-- part_000 lines 107-144, the catch block: log the raw fields and the
classification of the caught error, then, only when the session exists
and is still in a transaction, attempt a single abort whose own failure
is caught and logged. -/
def catchBlock (e : RawFailure) (sessionInTx : Bool) (abortFails : Bool) :
    List Event :=
  [.errorLogged (classifyTx e)] ++
    (if sessionInTx then
      .abortAttempted :: (if abortFails then [.abortFailLogged] else [.abortSucceeded])
    else [])

/-- part_000 lines 146-162, the finally block: end the session when one
was started, then close the client.  Returns the events together with
whether an exception escaped the finally block (which is the only way
the whole async function rejects). -/
def finallyBlock (sessionStarted endSessionFails closeFails : Bool) :
    List Event × Bool :=
  if sessionStarted then
    if endSessionFails then ([], true)
    else if closeFails then ([.sessionEnded], true)
    else ([.sessionEnded, .connectionClosed], false)
  else if closeFails then ([], true)
  else ([.connectionClosed], false)

/-- part_000 lines 21-144, the try/catch body: connect, create the index
(its failure is swallowed by an inner empty catch), start a session,
start the transaction, insert, update, commit; the first failing call
jumps to the catch block.  A session is in a transaction from
startTransaction until a commit or abort is attempted, so the catch
block aborts after an insert or update failure but not after a connect
or commit failure.  Returns events plus whether a session was started. -/
def tryCatchBody (env : RunEnv) : List Event × Bool :=
  match env.connectFails with
  | some e => (catchBlock e false env.abortFails, false)
  | none =>
    let pre := .connected ::
      ((if env.indexFails then [] else [.indexCreated]) ++
        [.sessionStarted, .txStarted])
    match env.insertFails with
    | some e => (pre ++ catchBlock e true env.abortFails, true)
    | none =>
      match env.updateFails with
      | some e => (pre ++ [.insertDone] ++ catchBlock e true env.abortFails, true)
      | none =>
        match env.commitFails with
        | some e =>
          (pre ++ [.insertDone, .updateDone] ++ catchBlock e false env.abortFails, true)
        | none => (pre ++ [.insertDone, .updateDone, .committed], true)

/-- One whole part_000 run: try/catch body then finally block.  The Bool
is true when an exception escaped the function (finally threw). -/
def runTransactionModel (env : RunEnv) : List Event × Bool :=
  let (evs, sessionStarted) := tryCatchBody env
  let (fevs, escapes) := finallyBlock sessionStarted env.endSessionFails env.closeFails
  (evs ++ fevs, escapes)

/-- part_000 lines 166-174: the process exits 0 when the run function
resolves and 1 when it rejects. -/
def exitCode (env : RunEnv) : Nat :=
  if (runTransactionModel env).2 then 1 else 0

/-- The classification log entries of a trace, in order. -/
def errorLogs (t : List Event) : List FailureCategory :=
  t.filterMap (fun e =>
    match e with
    | .errorLogged c => some c
    | _ => none)

/-- Whether an event is an abort attempt. -/
def isAbortAttempt : Event → Bool
  | .abortAttempted => true
  | _ => false

/-- Number of abort attempts in a trace. -/
def abortAttempts (t : List Event) : Nat :=
  (t.filter isAbortAttempt).length

/-- Observable events of one runTransactionHangOnCommit invocation
(src/test-worker-timeouts.js lines 93-259). -/
inductive HEvent where
  | connected
  | sessionStarted
  | txStarted
  | inserted (n : Nat)
  | beforeCommitCheckpoint
  | commitAttempted
  | committed
  | errorCaught
  | abortAttempted
  | sessionEnded
  | connectionClosed
  deriving DecidableEq

/-- Failure injection for one hang-on-commit run: whether connect fails,
whether each of the three inserts fails, and whether the commit fails. -/
structure HangEnv where
  connectFails : Bool
  insert1Fails : Bool
  insert2Fails : Bool
  insert3Fails : Bool
  commitFails : Bool

/-- The catch block of runTransactionHangOnCommit as trace events: the
error is logged and, when the session is still in a transaction, one
abort is attempted. -/
def hangCatch (sessionInTx : Bool) : List HEvent :=
  .errorCaught :: (if sessionInTx then [.abortAttempted] else [])

/-- src/test-worker-timeouts.js lines 93-259: connect, start a session,
start the transaction, run the three inserts of the loop at lines
142-153 in order, then the 30-second countdown plus 5-second wait at
lines 172-187 (the externally visible before-commit rendezvous, one
event), then the commit at line 196.  The first failing call jumps to
the catch block; the finally block is omitted here because it emits no
operation, checkpoint or commit event. -/
def hangTrace (env : HangEnv) : List HEvent :=
  if env.connectFails then hangCatch false
  else
    [.connected, .sessionStarted, .txStarted] ++
    (if env.insert1Fails then hangCatch true else
      .inserted 1 ::
      (if env.insert2Fails then hangCatch true else
        .inserted 2 ::
        (if env.insert3Fails then hangCatch true else
          .inserted 3 :: .beforeCommitCheckpoint :: .commitAttempted ::
          (if env.commitFails then hangCatch false else [.committed]))))

/-- Projection of a hang-on-commit trace onto the events the ordering
contract speaks about: the inserts, the before-commit rendezvous and the
commit attempt. -/
def coreEvents (t : List HEvent) : List HEvent :=
  t.filter (fun e =>
    match e with
    | .inserted _ => true
    | .beforeCommitCheckpoint => true
    | .commitAttempted => true
    | _ => false)

/-- The full core event sequence of a run that reaches commit. -/
def hangCanonical : List HEvent :=
  [.inserted 1, .inserted 2, .inserted 3, .beforeCommitCheckpoint, .commitAttempted]

/-- src/src/run-transaction-no-timeout.ts line 19: the connection string
of the unbounded configuration. -/
def MONGO_URI_noTimeout : String :=
  "mongodb://mongo1:27017,mongo2:27017,mongo3:27017/?replicaSet=rs0&socketTimeoutMS=0&serverSelectionTimeoutMS=300000"

/-- Split a character list at every occurrence of the separator. -/
def splitOnChar (sep : Char) : List Char → List (List Char)
  | [] => [[]]
  | c :: rest =>
    if c = sep then [] :: splitOnChar sep rest
    else
      match splitOnChar sep rest with
      | [] => [[c]]
      | g :: gs => (c :: g) :: gs

/-- The query portion of a connection string: everything after the first
question mark. -/
def uriQuery (uri : String) : List Char :=
  match splitOnChar '?' uri.data with
  | _ :: q :: _ => q
  | _ => []

/-- Value of a key in the query portion of a connection string. -/
def uriParam (uri : String) (key : String) : Option String :=
  ((splitOnChar '&' (uriQuery uri)).filterMap (fun kv =>
    match splitOnChar '=' kv with
    | [k, v] => if k = key.data then some (String.mk v) else none
    | _ => none)).head?

/-- src/src/run-transaction-no-timeout.ts lines 68-75: the transaction
options literal of the unbounded configuration; the writeConcern object
has no wtimeout field and the options have no maxCommitTimeMS field. -/
def transactionOptionsNoTimeout : TxOptions :=
  { writeConcern := { w := "majority", wtimeout := none }
    readConcernLevel := "majority"
    maxCommitTimeMS := none }

/-- src/src/run-transaction-no-timeout.ts line 127: commitTransaction is
invoked with no argument, so the commit call itself carries no per-call
time limit. -/
def commitCallMaxTimeMSNoTimeout : Option JSNum :=
  none

/-- Claim C1, counterexample: a RawFailure carrying both the retryable
label and the commit-timeout symbolic name ExceededTimeLimit, but also
the operation-timeout code 50, matches the operation-timeout branch
first, so classify does not return CommitTimeout as the claim states for
every such failure. -/
theorem classify_commit_retryable_mixed_cx :
    (RawFailure.mk (some 50) (some "ExceededTimeLimit") "" true).retryableLabelPresent = true ∧
    isCommitTimeoutErr (RawFailure.mk (some 50) (some "ExceededTimeLimit") "" true) = true ∧
    classify (RawFailure.mk (some 50) (some "ExceededTimeLimit") "" true) =
      ⟨.OperationTimeout, .RetryOperation⟩ ∧
    classify (RawFailure.mk (some 50) (some "ExceededTimeLimit") "" true) ≠
      ⟨.CommitTimeout, .Abort⟩ := by
  decide

/-- Claim C1, amended: a RawFailure carrying both the retryable label and
a commit-timeout name or code is never classified Retryable with action
RetryTransaction, because the commit-timeout branch is evaluated before
the retryable-label branch; it is classified CommitTimeout with action
Abort provided it does not also match the two branches that come even
earlier (operation timeout, write concern). -/
theorem classify_commit_timeout_precedence (f : RawFailure)
    (_hl : f.retryableLabelPresent = true) (hc : isCommitTimeoutErr f = true) :
    (isOperationTimeoutErr f = false → isWriteConcernErr f = false →
      classify f = ⟨.CommitTimeout, .Abort⟩) ∧
    classify f ≠ ⟨.Retryable, .RetryTransaction⟩ := by
  constructor
  · intro h1 h2
    simp [classify, classifyCategory, h1, h2, hc, recommendedFor]
  · cases h1 : isOperationTimeoutErr f <;> cases h2 : isWriteConcernErr f <;>
      simp [classify, classifyCategory, h1, h2, hc, recommendedFor]

/-- Claim C1, witness: at a failure with the retryable label and the
ExceededTimeLimit name, the amended theorem yields CommitTimeout/Abort
and rules out Retryable/RetryTransaction. -/
theorem classify_commit_timeout_precedence_witness :
    classify (RawFailure.mk none (some "ExceededTimeLimit") "" true) =
      ⟨.CommitTimeout, .Abort⟩ ∧
    classify (RawFailure.mk none (some "ExceededTimeLimit") "" true) ≠
      ⟨.Retryable, .RetryTransaction⟩ := by
  have h := classify_commit_timeout_precedence
    (RawFailure.mk none (some "ExceededTimeLimit") "" true) (by decide) (by decide)
  exact ⟨h.1 (by decide) (by decide), h.2⟩

/-- Claim C2: classify is a total deterministic function of the RawFailure
fields, and an input matching none of the five specific branch tests
falls through to Unclassified with action Abort. -/
theorem classify_total_and_fallthrough (f : RawFailure) :
    (∃! c : ClassifiedFailure, classify f = c) ∧
    (isOperationTimeoutErr f = false → isWriteConcernErr f = false →
     isCommitTimeoutErr f = false → f.retryableLabelPresent = false →
     isTopologyErr f = false → classify f = ⟨.Unclassified, .Abort⟩) := by
  constructor
  · exact ⟨classify f, rfl, fun c hc => hc.symm⟩
  · intro h1 h2 h3 h4 h5
    simp [classify, classifyCategory, h1, h2, h3, h4, h5, recommendedFor]

/-- Claim C2, witness: a failure matching no branch is Unclassified. -/
theorem classify_total_and_fallthrough_witness :
    classify (RawFailure.mk (some 9999) (some "SomeOtherError") "boom" false) =
      ⟨.Unclassified, .Abort⟩ :=
  (classify_total_and_fallthrough (RawFailure.mk (some 9999) (some "SomeOtherError") "boom" false)).2
    (by decide) (by decide) (by decide) (by decide) (by decide)

/-- Claim C3, counterexample: with each of the three timeout environment
variables set to -5 the options of a run are constructed with the
negative value -5 in the write-concern timeout, the commit timeout and
the per-operation timeout; construction never fails and there is no
InvalidPolicy path, so a run does start with a negative timeout value. -/
theorem negative_timeout_constructed_cx :
    (transactionOptions ⟨some "-5", some "-5", some "-5"⟩).writeConcern.wtimeout =
      some (some (-5)) ∧
    (transactionOptions ⟨some "-5", some "-5", some "-5"⟩).maxCommitTimeMS =
      some (some (-5)) ∧
    (operationOptions ⟨some "-5", some "-5", some "-5"⟩).maxTimeMS = some (some (-5)) ∧
    ((-5 : Int) < 0) := by
  decide

/-- Claim C3, amended: the configuration performs no validation at all:
any integer parsed from any of the three timeout environment variables,
negative ones included, is passed unchanged into the write-concern
timeout, the commit timeout and the per-operation timeout of the
transaction and operation options, and no construction-time failure
exists. -/
theorem timeout_env_passthrough_no_validation (s : String) (n : Int)
    (hp : jsParseInt s = some n) (_hn : n < 0) :
    (transactionOptions ⟨some s, some s, some s⟩).writeConcern.wtimeout = some (some n) ∧
    (transactionOptions ⟨some s, some s, some s⟩).maxCommitTimeMS = some (some n) ∧
    (operationOptions ⟨some s, some s, some s⟩).maxTimeMS = some (some n) := by
  have hs : s ≠ "" := by
    intro h
    rw [h] at hp
    have he : jsParseInt "" = none := by decide
    rw [he] at hp
    exact Option.noConfusion hp
  simp [transactionOptions, operationOptions, W_TIMEOUT_MS, MAX_COMMIT_MS,
    OP_MAXTIME_MS, jsOr, hs, hp]

/-- Claim C3, witness: the value -5 parses as a negative integer and
lands unchanged in the constructed write-concern timeout, commit timeout
and per-operation timeout. -/
theorem timeout_env_passthrough_witness :
    (transactionOptions ⟨some "-5", some "-5", some "-5"⟩).writeConcern.wtimeout =
      some (some (-5)) ∧
    (transactionOptions ⟨some "-5", some "-5", some "-5"⟩).maxCommitTimeMS =
      some (some (-5)) ∧
    (operationOptions ⟨some "-5", some "-5", some "-5"⟩).maxTimeMS = some (some (-5)) :=
  timeout_env_passthrough_no_validation "-5" (-5) (by decide) (by decide)

/-- Claim C5: under the unbounded configuration the transaction options
carry no maxCommitTimeMS and no wtimeout, the connection string sets
socketTimeoutMS to 0 and serverSelectionTimeoutMS to the finite value
300000, and the commit call itself passes no time limit. -/
theorem unbounded_policy_no_engine_bound :
    transactionOptionsNoTimeout.maxCommitTimeMS = none ∧
    transactionOptionsNoTimeout.writeConcern.wtimeout = none ∧
    uriParam MONGO_URI_noTimeout "socketTimeoutMS" = some "0" ∧
    uriParam MONGO_URI_noTimeout "serverSelectionTimeoutMS" = some "300000" ∧
    commitCallMaxTimeMSNoTimeout = none := by
  decide

/-- Claim C6: when the three environment variables are unset, the values
used are the bounded defaults 2000, 1500 and 1000 milliseconds, and the
corresponding option fields are present (never the absent-field
unbounded form). -/
theorem absent_env_bounded_defaults :
    W_TIMEOUT_MS none = some 2000 ∧
    MAX_COMMIT_MS none = some 1500 ∧
    OP_MAXTIME_MS none = some 1000 ∧
    (transactionOptions ⟨none, none, none⟩).writeConcern.wtimeout = some (some 2000) ∧
    (transactionOptions ⟨none, none, none⟩).maxCommitTimeMS = some (some 1500) ∧
    (operationOptions ⟨none, none, none⟩).maxTimeMS = some (some 1000) := by
  decide

/-- Claim C7, counterexample: NotWritablePrimary is one of the topology
names listed by the claim and matches no higher-precedence branch, yet
the hang-on-commit classifier sends it to the fall-through branch, not
to TopologyChange. -/
theorem notwritableprimary_unclassified_cx :
    specIndicatesTopologyChange (RawFailure.mk none (some "NotWritablePrimary") "" false) = true ∧
    isOperationTimeoutErr (RawFailure.mk none (some "NotWritablePrimary") "" false) = false ∧
    isWriteConcernErr (RawFailure.mk none (some "NotWritablePrimary") "" false) = false ∧
    isCommitTimeoutErr (RawFailure.mk none (some "NotWritablePrimary") "" false) = false ∧
    (RawFailure.mk none (some "NotWritablePrimary") "" false).retryableLabelPresent = false ∧
    classify (RawFailure.mk none (some "NotWritablePrimary") "" false) =
      ⟨.Unclassified, .Abort⟩ := by
  decide

/-- Claim C7, amended: the topology branch of the hang-on-commit
classifier recognises exactly NotPrimaryOrSecondary and
InterruptedDueToReplStateChange; for those, when no earlier branch
matches, classify returns TopologyChange with RetryTransaction, and the
branch is evaluated after the retryable-label branch (a labelled failure
wins as Retryable).  NotWritablePrimary is recognised as a topology
change only by the hang-pause classifier. -/
theorem topology_branch_after_retryable :
    (∀ f : RawFailure, isTopologyErr f = true →
      isOperationTimeoutErr f = false → isWriteConcernErr f = false →
      isCommitTimeoutErr f = false →
      ((f.retryableLabelPresent = false →
          classify f = ⟨.TopologyChange, .RetryTransaction⟩) ∧
       (f.retryableLabelPresent = true →
          classify f = ⟨.Retryable, .RetryTransaction⟩))) ∧
    (∀ f : RawFailure, f.symbolicName = some "NotWritablePrimary" →
      classifyHangPause f = .topologyChanged) := by
  constructor
  · intro f ht h1 h2 h3
    constructor <;> intro hr <;>
      simp [classify, classifyCategory, h1, h2, h3, hr, ht, recommendedFor]
  · intro f h
    simp [classifyHangPause, h]

/-- Claim C7, witness: the amended theorem evaluated at the two topology
names of the hang-on-commit chain and at NotWritablePrimary for the
hang-pause chain. -/
theorem topology_branch_after_retryable_witness :
    classify (RawFailure.mk none (some "NotPrimaryOrSecondary") "" false) =
      ⟨.TopologyChange, .RetryTransaction⟩ ∧
    classify (RawFailure.mk none (some "NotPrimaryOrSecondary") "" true) =
      ⟨.Retryable, .RetryTransaction⟩ ∧
    classifyHangPause (RawFailure.mk none (some "NotWritablePrimary") "" false) =
      .topologyChanged := by
  refine ⟨?_, ?_, ?_⟩
  · exact (topology_branch_after_retryable.1
      (RawFailure.mk none (some "NotPrimaryOrSecondary") "" false)
      (by decide) (by decide) (by decide) (by decide)).1 (by decide)
  · exact (topology_branch_after_retryable.1
      (RawFailure.mk none (some "NotPrimaryOrSecondary") "" true)
      (by decide) (by decide) (by decide) (by decide)).2 (by decide)
  · exact topology_branch_after_retryable.2
      (RawFailure.mk none (some "NotWritablePrimary") "" false) (by decide)

/-- Claim C10, counterexample: the empty string parses to NaN under
parseInt, yet because the empty string is falsy the default 2000 is
substituted before parsing, so the value used is 2000 and not NaN. -/
theorem empty_env_not_nan_cx :
    jsParseInt "" = none ∧ W_TIMEOUT_MS (some "") = some 2000 := by
  decide

/-- Claim C10, amended: for any non-empty environment string whose
leading characters do not parse as an integer, the parsed NaN is passed
through unchanged into the transaction and operation options, neither
replaced by the bounded default nor rejected. -/
theorem nan_env_passthrough (s : String) (hne : s ≠ "") (hp : jsParseInt s = none) :
    (transactionOptions ⟨some s, some s, some s⟩).writeConcern.wtimeout = some none ∧
    (transactionOptions ⟨some s, some s, some s⟩).maxCommitTimeMS = some none ∧
    (operationOptions ⟨some s, some s, some s⟩).maxTimeMS = some none := by
  simp [transactionOptions, operationOptions, W_TIMEOUT_MS, MAX_COMMIT_MS,
    OP_MAXTIME_MS, jsOr, hne, hp]

/-- Claim C10, witness: the unparseable string abc flows through as NaN
into all three option fields. -/
theorem nan_env_passthrough_witness :
    (transactionOptions ⟨some "abc", some "abc", some "abc"⟩).writeConcern.wtimeout = some none ∧
    (transactionOptions ⟨some "abc", some "abc", some "abc"⟩).maxCommitTimeMS = some none ∧
    (operationOptions ⟨some "abc", some "abc", some "abc"⟩).maxTimeMS = some none :=
  nan_env_passthrough "abc" (by decide) (by decide)

/-- Claim C4: when a run of part_000 fails at a stage at which the
session is still in a transaction (the insert or the update), the trace
contains exactly one abort attempt, the only classification logged is
that of the original failure, and when the abort itself fails its
failure is logged without changing that. -/
theorem tx_failure_single_abort (env : RunEnv) (e : RawFailure)
    (hc : env.connectFails = none)
    (hf : env.insertFails = some e ∨ (env.insertFails = none ∧ env.updateFails = some e)) :
    abortAttempts (runTransactionModel env).1 = 1 ∧
    errorLogs (runTransactionModel env).1 = [classifyTx e] ∧
    (env.abortFails = true → Event.abortFailLogged ∈ (runTransactionModel env).1) := by
  obtain ⟨cf, idxf, insf, updf, comf, abf, esf, clf⟩ := env
  simp only at hc hf
  subst hc
  rcases hf with h | ⟨h1, h2⟩
  · subst h
    cases idxf <;> cases abf <;> cases esf <;> cases clf <;>
      simp [runTransactionModel, tryCatchBody, catchBlock, finallyBlock,
        abortAttempts, errorLogs, isAbortAttempt]
  · subst h1; subst h2
    cases idxf <;> cases abf <;> cases esf <;> cases clf <;>
      simp [runTransactionModel, tryCatchBody, catchBlock, finallyBlock,
        abortAttempts, errorLogs, isAbortAttempt]

/-- Claim C4, witness: a run whose update fails with a write-concern
error and whose abort also fails still logs exactly the original
classification and attempts exactly one abort. -/
theorem tx_failure_single_abort_witness :
    abortAttempts (runTransactionModel
      ⟨none, false, none, some (RawFailure.mk (some 64) (some "WriteConcernFailed") "wc" false),
        none, true, false, false⟩).1 = 1 ∧
    errorLogs (runTransactionModel
      ⟨none, false, none, some (RawFailure.mk (some 64) (some "WriteConcernFailed") "wc" false),
        none, true, false, false⟩).1 = [.WriteConcernTimeout] ∧
    Event.abortFailLogged ∈ (runTransactionModel
      ⟨none, false, none, some (RawFailure.mk (some 64) (some "WriteConcernFailed") "wc" false),
        none, true, false, false⟩).1 := by
  have h := tx_failure_single_abort
    ⟨none, false, none, some (RawFailure.mk (some 64) (some "WriteConcernFailed") "wc" false),
      none, true, false, false⟩
    (RawFailure.mk (some 64) (some "WriteConcernFailed") "wc" false)
    rfl (Or.inr ⟨rfl, rfl⟩)
  refine ⟨h.1, ?_, h.2.2 rfl⟩
  have hcl : classifyTx (RawFailure.mk (some 64) (some "WriteConcernFailed") "wc" false) =
      .WriteConcernTimeout := by decide
  rw [h.2.1, hcl]

/-- Claim C8: in every hang-on-commit run the sequence of inserts, the
before-commit rendezvous and the commit attempt is an initial segment of
the canonical order insert 1, insert 2, insert 3, rendezvous, commit
attempt (so operations are issued in program order, the rendezvous
happens at most once, only after all three inserts, and the commit is
attempted only after the rendezvous, never before it); the rendezvous
occurs at most once in the whole trace, and in a run where connect and
the three inserts succeed the core sequence is exactly the canonical
one. -/
theorem checkpoint_before_commit_order (env : HangEnv) :
    List.IsPrefix (coreEvents (hangTrace env)) hangCanonical ∧
    ((hangTrace env).filter (fun ev => ev = HEvent.beforeCommitCheckpoint)).length ≤ 1 ∧
    (env.connectFails = false → env.insert1Fails = false → env.insert2Fails = false →
      env.insert3Fails = false → coreEvents (hangTrace env) = hangCanonical) := by
  obtain ⟨a, b, c, d, e⟩ := env
  cases a <;> cases b <;> cases c <;> cases d <;> cases e <;> decide

/-- Claim C8, witness: in the run where nothing fails before commit the
core event sequence is exactly the canonical one. -/
theorem checkpoint_before_commit_order_witness :
    coreEvents (hangTrace ⟨false, false, false, false, false⟩) = hangCanonical :=
  (checkpoint_before_commit_order ⟨false, false, false, false, false⟩).2.2
    rfl rfl rfl rfl

/-- Claim C9: a part_000 run that logged a classified failure still
exits 0 when the finally block succeeds, and the exit code is 1 exactly
when an exception escapes the finally block, that is when endSession
throws on a started session or when close throws. -/
theorem classified_failure_exits_zero (env : RunEnv) :
    (errorLogs (runTransactionModel env).1 ≠ [] → env.endSessionFails = false →
      env.closeFails = false → exitCode env = 0) ∧
    (exitCode env = 1 ↔
      ((env.connectFails = none ∧ env.endSessionFails = true) ∨ env.closeFails = true)) := by
  obtain ⟨cf, idxf, insf, updf, comf, abf, esf, clf⟩ := env
  cases cf <;> cases insf <;> cases updf <;> cases comf <;>
    cases idxf <;> cases abf <;> cases esf <;> cases clf <;>
    simp [exitCode, runTransactionModel, tryCatchBody, catchBlock, finallyBlock, errorLogs]

/-- Claim C9, witness: a run whose commit fails with a commit-timeout
error and whose finally block succeeds exits 0. -/
theorem classified_failure_exits_zero_witness :
    exitCode ⟨none, false, none, none,
      some (RawFailure.mk (some 262) (some "ExceededTimeLimit") "t" false),
      false, false, false⟩ = 0 :=
  (classified_failure_exits_zero
    ⟨none, false, none, none,
      some (RawFailure.mk (some 262) (some "ExceededTimeLimit") "t" false),
      false, false, false⟩).1 (by decide) rfl rfl
